import Mathlib

/-!
Shallow embedding of the walk-forward trading-strategy evaluator in `src/app.py`
(class `App`): data model, preprocessing, the two-stage lookback aggregation
pipeline, per-cycle forward-PnL computation, and the month-stepping walk-forward
loop.  Numeric columns are modelled by exact rationals (`ℚ`); timestamps by a
calendar `DateTime` structure whose comparison is the field-lexicographic order
used by Python `datetime`.  Polars' `group_by` does not guarantee an iteration
order for the groups; the pipeline is therefore parameterised by a
`GroupOrders` record of reorder functions applied to each `group_by` output,
with the identity (first-occurrence order) as the canonical instantiation.
-/

/-- A timestamp: calendar date plus microseconds of day, mirroring Python
`datetime` (year, month, day, time-of-day).  Comparison is field-lexicographic,
as in Python. -/
structure DateTime where
  year : Nat
  month : Nat
  day : Nat
  us : Nat
deriving DecidableEq, Repr

/-- Lexicographic `a <= b` on (year, month, day, time), the order Python uses to
compare `datetime` values. -/
def DateTime.ble (a b : DateTime) : Bool :=
  if a.year ≠ b.year then decide (a.year < b.year)
  else if a.month ≠ b.month then decide (a.month < b.month)
  else if a.day ≠ b.day then decide (a.day < b.day)
  else decide (a.us ≤ b.us)

/-- Lexicographic strict `a < b` on (year, month, day, time). -/
def DateTime.blt (a b : DateTime) : Bool :=
  if a.year ≠ b.year then decide (a.year < b.year)
  else if a.month ≠ b.month then decide (a.month < b.month)
  else if a.day ≠ b.day then decide (a.day < b.day)
  else decide (a.us < b.us)

/-- Zero-based month index on the integer time line: `year*12 + month - 1`. -/
def monthIdxI (dt : DateTime) : Int := (dt.year : Int) * 12 + (dt.month : Int) - 1

/-- Gregorian leap-year test. -/
def isLeap (y : Nat) : Bool := (y % 4 == 0 && y % 100 != 0) || y % 400 == 0

/-- Number of days in the given month of the given year. -/
def daysInMonth (y m : Nat) : Nat :=
  if m = 2 then (if isLeap y then 29 else 28)
  else if m = 4 ∨ m = 6 ∨ m = 9 ∨ m = 11 then 30
  else 31

/-- Month arithmetic of `dateutil.relativedelta(months=k)`: shift the month
index by `k` and clamp the day to the target month's length; the time of day is
unchanged.  (Python's floor division/modulo on a positive divisor is `ediv` /
`emod`.) -/
def addMonthsI (dt : DateTime) (k : Int) : DateTime :=
  { year := ((monthIdxI dt + k).ediv 12).toNat
    month := ((monthIdxI dt + k).emod 12).toNat + 1
    day := min dt.day
      (daysInMonth ((monthIdxI dt + k).ediv 12).toNat
        (((monthIdxI dt + k).emod 12).toNat + 1))
    us := dt.us }

/-- One step of the walk-forward loop's cursor: `+ relativedelta(months=1)`. -/
def stepMonth (dt : DateTime) : DateTime := addMonthsI dt 1

/-- Cumulative day count before the first day of month `m` in a non-leap year. -/
def cumDaysM (m : Nat) : Nat :=
  match m with
  | 1 => 0 | 2 => 31 | 3 => 59 | 4 => 90 | 5 => 120 | 6 => 151
  | 7 => 181 | 8 => 212 | 9 => 243 | 10 => 273 | 11 => 304 | 12 => 334
  | _ => 0

/-- One-based ordinal of the day within its year. -/
def dayOfYear (y m d : Nat) : Int :=
  (cumDaysM m + d : Int) + (if 2 < m ∧ isLeap y then 1 else 0)

/-- Rata-die day number of a Gregorian date (0001-01-01 is day 1, a Monday). -/
def rataDie (y m d : Nat) : Int :=
  365 * ((y : Int) - 1) + ((y : Int) - 1).fdiv 4 - ((y : Int) - 1).fdiv 100
    + ((y : Int) - 1).fdiv 400 + dayOfYear y m d

/-- Microseconds per day. -/
def usPerDay : Nat := 86400000000

/-- Absolute position of a timestamp on the microsecond time line. -/
def absUs (dt : DateTime) : Int := rataDie dt.year dt.month dt.day * usPerDay + dt.us

/-- The `.days` field of the Python `timedelta` `a - b` (floor of the
difference in days). -/
def timedeltaDays (a b : DateTime) : Int := (absUs a - absUs b).fdiv usPerDay

/-- ISO weekday of a date, 1 = Monday .. 7 = Sunday. -/
def isoDow (y m d : Nat) : Int :=
  if (rataDie y m d).emod 7 = 0 then 7 else (rataDie y m d).emod 7

/-- Helper for the ISO week count of a year. -/
def isoP (y : Nat) : Int :=
  ((y : Int) + (y : Int).fdiv 4 - (y : Int).fdiv 100 + (y : Int).fdiv 400).emod 7

/-- Number of ISO weeks (52 or 53) in year `y`. -/
def isoWeeksInYear (y : Nat) : Int :=
  if isoP y = 4 ∨ isoP (y - 1) = 3 then 53 else 52

/-- ISO 8601 week number of a date, as returned by polars `dt.week()`. -/
def isoWeek (dt : DateTime) : Nat :=
  (if (dayOfYear dt.year dt.month dt.day - isoDow dt.year dt.month dt.day + 10).fdiv 7 < 1
   then isoWeeksInYear (dt.year - 1)
   else if isoWeeksInYear dt.year <
       (dayOfYear dt.year dt.month dt.day - isoDow dt.year dt.month dt.day + 10).fdiv 7
   then 1
   else (dayOfYear dt.year dt.month dt.day - isoDow dt.year dt.month dt.day + 10).fdiv 7).toNat

/-- The time-of-day grouping label produced by `dt.to_string("%I:%M %p")`:
12-hour hour, minute, and an AM/PM flag.  The rendered string is determined by
(and determines) this triple, so the triple stands in for the label. -/
structure TimeLabel where
  hour12 : Nat
  minute : Nat
  isPM : Bool
deriving DecidableEq, Repr

/-- Label of a time of day given in microseconds since midnight. -/
def timeLabelOf (us : Nat) : TimeLabel :=
  { hour12 := if (us / 3600000000) % 12 = 0 then 12 else (us / 3600000000) % 12
    minute := (us / 60000000) % 60
    isPM := decide (12 ≤ us / 3600000000) }

/-- One raw trade record: the four required CSV columns, with `EntryTime`
already parsed to a timestamp (the fixed-format string parse itself is not
modelled). -/
structure TradeRow where
  entryTime : DateTime
  premium : ℚ
  profitLossAfterSlippage : ℚ
  commissionFees : ℚ
deriving DecidableEq, Repr

/-- A record after `_preprocess_data`: the original columns plus the derived
columns `PnL`, `PCR`, `Year`, `Month`, `Week`, `Time`. -/
structure PRow where
  entryTime : DateTime
  premium : ℚ
  profitLossAfterSlippage : ℚ
  commissionFees : ℚ
  pnl : ℚ
  pcr : ℚ
  year : Nat
  month : Nat
  week : Nat
  time : TimeLabel
deriving DecidableEq, Repr

/-- Derivation of one row's extra columns, mirroring `_preprocess_data`:
`PnL = ProfitLossAfterSlippage * 100 - CommissionFees`, `PCR = PnL / Premium`,
and the calendar features `Year`, `Month`, `Week` (ISO), `Time` (12-hour label). -/
def preprocessRow (r : TradeRow) : PRow :=
  { entryTime := r.entryTime
    premium := r.premium
    profitLossAfterSlippage := r.profitLossAfterSlippage
    commissionFees := r.commissionFees
    pnl := r.profitLossAfterSlippage * 100 - r.commissionFees
    pcr := (r.profitLossAfterSlippage * 100 - r.commissionFees) / r.premium
    year := r.entryTime.year
    month := r.entryTime.month
    week := isoWeek r.entryTime
    time := timeLabelOf r.entryTime.us }

/-- `_preprocess_data` over the whole table. -/
def preprocessData (df : List TradeRow) : List PRow := df.map preprocessRow

/-- `df.select(pl.col("EntryTime").min()).item()` (arbitrary epoch on an empty
table, which the source would not survive anyway). -/
def minDatetime (df : List PRow) : DateTime :=
  match df with
  | [] => ⟨1970, 1, 1, 0⟩
  | r :: rs => rs.foldl (fun acc x => if x.entryTime.ble acc then x.entryTime else acc) r.entryTime

/-- `df.select(pl.col("EntryTime").max()).item()`. -/
def maxDatetime (df : List PRow) : DateTime :=
  match df with
  | [] => ⟨1970, 1, 1, 0⟩
  | r :: rs => rs.foldl (fun acc x => if acc.ble x.entryTime then x.entryTime else acc) r.entryTime

/-- Arithmetic mean of a column, as computed by polars `mean` (only ever applied
to non-empty groups). -/
def colMean (l : List ℚ) : ℚ := l.sum / (l.length : ℚ)

/-- Keys of a list in order of first occurrence. -/
def uniqueKeys {α K : Type} [DecidableEq K] (key : α → K) : List α → List K
  | [] => []
  | x :: xs => key x :: (uniqueKeys key xs).filter (fun k => decide (k ≠ key x))

/-- `group_by`: one group per distinct key, each group holding its rows in frame
order.  The canonical group order used here is first occurrence; polars does not
guarantee any particular order, which `GroupOrders` below accounts for. -/
def groupBy {α K : Type} [DecidableEq K] (key : α → K) (l : List α) : List (K × List α) :=
  (uniqueKeys key l).map (fun k => (k, l.filter (fun x => decide (key x = k))))

/-- Stable descending sort by a rational-valued key, the behaviour of
`.sort(col, descending=True)` relied on by the source. -/
def sortDesc {α : Type} (key : α → ℚ) (l : List α) : List α :=
  List.insertionSort (fun a b => key b ≤ key a) l

/-- The "Optimize for" parameter: which column ranks slots. -/
inductive RankMetric where
  | PnL
  | PCR
deriving DecidableEq, Repr

/-- The "Aggregate by" parameter: the period column of the first grouping. -/
inductive AggBy where
  | Month
  | Week
deriving DecidableEq, Repr

/-- The calculation parameters gathered by `_get_calc_parameters`. -/
structure AppParams where
  sortBy : RankMetric
  aggBy : AggBy
  topAggN : Nat
  topN : Nat
deriving DecidableEq, Repr

/-- A row of the first aggregation: key `(Year, period, Time)` with the mean
`PnL` and `PCR` of its group (the polars column names are kept). -/
structure SlotAgg where
  year : Nat
  period : Nat
  time : TimeLabel
  pnl : ℚ
  pcr : ℚ
deriving DecidableEq, Repr

/-- Value of the ranking column on a first-stage row. -/
def SlotAgg.metricVal (m : RankMetric) (a : SlotAgg) : ℚ :=
  match m with
  | .PnL => a.pnl
  | .PCR => a.pcr

/-- A row of the final slot table: `Time` with pooled mean `PnL` and `PCR`. -/
structure SlotRow where
  time : TimeLabel
  pnl : ℚ
  pcr : ℚ
deriving DecidableEq, Repr

/-- Value of the ranking column on a final slot row. -/
def SlotRow.metricVal (m : RankMetric) (a : SlotRow) : ℚ :=
  match m with
  | .PnL => a.pnl
  | .PCR => a.pcr

/-- The period column value used by the first grouping (`Month` or `Week`). -/
def periodVal (p : AppParams) (r : PRow) : Nat :=
  match p.aggBy with
  | .Month => r.month
  | .Week => r.week

/-- Group-iteration orders for the three `group_by` calls of
`_get_lookback_data`; polars leaves these orders unspecified. -/
structure GroupOrders where
  o1 : List ((Nat × Nat × TimeLabel) × List PRow) → List ((Nat × Nat × TimeLabel) × List PRow)
  o2 : List ((Nat × Nat) × List SlotAgg) → List ((Nat × Nat) × List SlotAgg)
  o3 : List (TimeLabel × List SlotAgg) → List (TimeLabel × List SlotAgg)

/-- The canonical (first-occurrence) group orders. -/
def canonicalOrders : GroupOrders := ⟨id, id, id⟩

/-- The window filter of `_get_lookback_data`: `EntryTime >= start` and
`EntryTime <= stop`, inclusive on both bounds. -/
def windowRows (df : List PRow) (start stop : DateTime) : List PRow :=
  df.filter (fun r => start.ble r.entryTime && r.entryTime.ble stop)

/-- First stage of `_get_lookback_data`: group the window's rows by
`(Year, period, Time)` and take the mean `PnL` and `PCR` per group. -/
def stage1With (os : GroupOrders) (p : AppParams) (df : List PRow) (start stop : DateTime) :
    List SlotAgg :=
  (os.o1 (groupBy (fun r => (r.year, periodVal p r, r.time)) (windowRows df start stop))).map
    (fun g => { year := g.1.1, period := g.1.2.1, time := g.1.2.2,
                pnl := colMean (g.2.map PRow.pnl), pcr := colMean (g.2.map PRow.pcr) })

/-- Second stage: sort the slot rows descending by the ranking column, group by
`(Year, period)`, keep the first `top_agg_n` rows of each period, and explode
back to rows. -/
def stage2With (os : GroupOrders) (p : AppParams) (df : List PRow) (start stop : DateTime) :
    List SlotAgg :=
  (os.o2 (groupBy (fun a : SlotAgg => (a.year, a.period))
      (sortDesc (SlotAgg.metricVal p.sortBy) (stage1With os p df start stop)))).flatMap
    (fun g => g.2.take p.topAggN)

/-- Third stage: pool the surviving period-local rows by `Time` alone and take
the mean of their (already aggregated) `PnL` and `PCR`. -/
def stage3With (os : GroupOrders) (p : AppParams) (df : List PRow) (start stop : DateTime) :
    List SlotRow :=
  (os.o3 (groupBy (fun a : SlotAgg => a.time) (stage2With os p df start stop))).map
    (fun g => { time := g.1, pnl := colMean (g.2.map SlotAgg.pnl),
                pcr := colMean (g.2.map SlotAgg.pcr) })

/-- The final two operations of `_get_lookback_data`: sort the pooled slot table
descending by the ranking column and keep the top `n` rows. -/
def selectTop (m : RankMetric) (n : Nat) (slotStats : List SlotRow) : List SlotRow :=
  (sortDesc (SlotRow.metricVal m) slotStats).take n

/-- `_get_lookback_data(start, stop)` under a given group-iteration order. -/
def getLookbackDataWith (os : GroupOrders) (p : AppParams) (df : List PRow)
    (start stop : DateTime) : List SlotRow :=
  selectTop p.sortBy p.topN (stage3With os p df start stop)

/-- `_get_lookback_data` with the canonical group orders. -/
def getLookbackData (p : AppParams) (df : List PRow) (start stop : DateTime) : List SlotRow :=
  getLookbackDataWith canonicalOrders p df start stop

/-- First aggregation stage with the canonical group orders. -/
def stage1 (p : AppParams) (df : List PRow) (start stop : DateTime) : List SlotAgg :=
  stage1With canonicalOrders p df start stop

/-- Second (top-per-period, exploded) stage with the canonical group orders. -/
def stage2 (p : AppParams) (df : List PRow) (start stop : DateTime) : List SlotAgg :=
  stage2With canonicalOrders p df start stop

/-- Pooled slot table with the canonical group orders. -/
def stage3 (p : AppParams) (df : List PRow) (start stop : DateTime) : List SlotRow :=
  stage3With canonicalOrders p df start stop

/-- `_calc_forward_pnl(lookback_data, start, stop)`: sum of `PnL` over trades
with `start < EntryTime <= stop` whose `Time` label is among the lookback
table's times. -/
def calcForwardPnl (df : List PRow) (lookbackData : List SlotRow) (start stop : DateTime) : ℚ :=
  ((df.filter (fun r => start.blt r.entryTime && r.entryTime.ble stop &&
      (lookbackData.map SlotRow.time).contains r.time)).map PRow.pnl).sum

/-- One iteration of the walk-forward loop: the cycle's forward-start `x` value
and the month's anchored and unanchored forward PnL. -/
structure ForwardCycle where
  forwardStart : DateTime
  anchoredPnl : ℚ
  unanchoredPnl : ℚ
deriving DecidableEq, Repr

/-- Body of the `while forward_end <= self.max_datetime` loop of
`_calc_forward`, with an explicit iteration budget (`loopFuel` below supplies a
budget that provably never cuts the loop short, so the guard alone decides
termination). -/
def forwardCyclesAux (os : GroupOrders) (p : AppParams) (df : List PRow)
    (lookbackStart maxDt : DateTime) : Nat → DateTime → DateTime → List ForwardCycle
  | 0, _, _ => []
  | fuel + 1, ustart, fe =>
    if fe.ble maxDt then
      { forwardStart := addMonthsI fe (-1)
        anchoredPnl := calcForwardPnl df
          (getLookbackDataWith os p df lookbackStart (addMonthsI fe (-1)))
          (addMonthsI fe (-1)) fe
        unanchoredPnl := calcForwardPnl df
          (getLookbackDataWith os p df ustart (addMonthsI fe (-1)))
          (addMonthsI fe (-1)) fe }
        :: forwardCyclesAux os p df lookbackStart maxDt fuel (addMonthsI ustart 1) (addMonthsI fe 1)
    else []

/-- Iteration budget for the walk-forward loop: the month distance from the
first `forward_end` to the data's maximum timestamp, plus one. -/
def loopFuel (maxDt fe : DateTime) : Nat := (monthIdxI maxDt + 1 - monthIdxI fe).toNat

/-- The walk-forward loop of `_calc_forward`: starts with
`forward_end = lookback_end + 1 month` and `unanchored_start = lookback_start`,
and iterates while `forward_end <= max_datetime`. -/
def forwardCycles (os : GroupOrders) (p : AppParams) (df : List PRow)
    (lookbackStart maxDt ustart lookbackEnd : DateTime) : List ForwardCycle :=
  forwardCyclesAux os p df lookbackStart maxDt
    (loopFuel maxDt (addMonthsI lookbackEnd 1)) ustart (addMonthsI lookbackEnd 1)

/-- The running-total accumulation `xs.append(pnl + xs[-1] if xs else pnl)`
applied to a whole list of per-cycle sums, carrying the last total. -/
def runningTotalsAux (acc : ℚ) : List ℚ → List ℚ
  | [] => []
  | p :: ps => (acc + p) :: runningTotalsAux (acc + p) ps

/-- Cumulative series of a list of per-cycle sums. -/
def runningTotals (l : List ℚ) : List ℚ := runningTotalsAux 0 l

/-- Everything `_calc_forward` computes: the displayed lookback table, the `x`
axis, and the anchored and unanchored cumulative series. -/
structure RunOutput where
  lookback : List SlotRow
  xs : List DateTime
  anchored : List ℚ
  unanchored : List ℚ
deriving DecidableEq, Repr

/-- `_calc_forward` under a given group-iteration order. -/
def calcForwardFullWith (os : GroupOrders) (p : AppParams) (df : List PRow)
    (lookbackStart lookbackEnd : DateTime) : RunOutput :=
  { lookback := getLookbackDataWith os p df lookbackStart lookbackEnd
    xs := (forwardCycles os p df lookbackStart (maxDatetime df) lookbackStart lookbackEnd).map
      ForwardCycle.forwardStart
    anchored := runningTotals
      ((forwardCycles os p df lookbackStart (maxDatetime df) lookbackStart lookbackEnd).map
        ForwardCycle.anchoredPnl)
    unanchored := runningTotals
      ((forwardCycles os p df lookbackStart (maxDatetime df) lookbackStart lookbackEnd).map
        ForwardCycle.unanchoredPnl) }

/-- `_calc_forward` with the canonical group orders. -/
def calcForwardFull (p : AppParams) (df : List PRow) (lookbackStart lookbackEnd : DateTime) :
    RunOutput :=
  calcForwardFullWith canonicalOrders p df lookbackStart lookbackEnd

/-- Date part of a timestamp (midnight), as produced by
`datetime.combine(date, datetime.min.time())` or by the date coercion of the
sidebar widgets. -/
def dateOnly (dt : DateTime) : DateTime := ⟨dt.year, dt.month, dt.day, 0⟩

/-- Microseconds of `datetime.max.time()`, i.e. 23:59:59.999999. -/
def usEndOfDay : Nat := 86399999999

/-- The two sidebar inputs of `_get_lookback_parameters`: the lookback start
date and the number of lookback months. -/
structure LookbackChoice where
  startDate : DateTime
  months : Int
deriving DecidableEq, Repr

/-- `datetime.combine(lookback_start, datetime.min.time())`. -/
def lookbackStartOf (c : LookbackChoice) : DateTime := dateOnly c.startDate

/-- `lookback_start + relativedelta(months=lookback_months)` combined with
`datetime.max.time()`. -/
def lookbackEndOf (c : LookbackChoice) : DateTime :=
  { addMonthsI (lookbackStartOf c) c.months with us := usEndOfDay }

/-- The widget bounds of `_get_lookback_parameters`: the start date must lie in
`[min_datetime, max_datetime - relativedelta(months=2)]` (as dates) and the
month count in `[1, ((max_datetime - lookback_start).days // 30) - 1]`.
Streamlit prevents submitting values outside these bounds, so a configuration
is representable exactly when this predicate holds. -/
def lookbackChoiceOk (minDt maxDt : DateTime) (c : LookbackChoice) : Bool :=
  (dateOnly minDt).ble (dateOnly c.startDate) &&
  (dateOnly c.startDate).ble (dateOnly (addMonthsI maxDt (-2))) &&
  decide (1 ≤ c.months) &&
  decide (c.months ≤ (timedeltaDays maxDt (lookbackStartOf c)).fdiv 30 - 1)

/-- The four required CSV columns checked by `_validate_data`. -/
def requiredCols : List String :=
  ["EntryTime", "Premium", "ProfitLossAfterSlippage", "CommissionFees"]

/-- The set difference `{required columns} - {actual columns}`, kept in the
required-column order. -/
def missingCols (cols : List String) : List String :=
  requiredCols.filter (fun c => !(cols.contains c))

/-- The computation `run` performs after validation succeeds: preprocess, read
the lookback parameters, and run `_calc_forward`. -/
def appBody (raw : List TradeRow) (c : LookbackChoice) (p : AppParams) : RunOutput :=
  calcForwardFull p (preprocessData raw) (lookbackStartOf c) (lookbackEndOf c)

/-- `run`: `_validate_data` aborts with the missing-column set and no further
processing when a required column is absent; otherwise the full computation
runs. -/
def runApp (cols : List String) (raw : List TradeRow) (c : LookbackChoice) (p : AppParams) :
    Except (List String) RunOutput :=
  if missingCols cols = [] then .ok (appBody raw c p) else .error (missingCols cols)

/-- A month field as produced by `addMonthsI`, i.e. in `1..12`.  The loop
cursor always satisfies this. -/
def MonthNormal (dt : DateTime) : Prop := 1 ≤ dt.month ∧ dt.month ≤ 12

/-- Dataset exhibiting the configuration slip of `_get_lookback_parameters`:
trades at 2023-07-01 09:30 and 2023-09-01 10:00. -/
def c1Raw : List TradeRow :=
  [⟨⟨2023, 7, 1, 34200000000⟩, 1, 1, 0⟩,
   ⟨⟨2023, 9, 1, 36000000000⟩, 1, 1, 0⟩]

/-- The preprocessed configuration-slip dataset. -/
def c1Df : List PRow := preprocessData c1Raw

/-- Lookback choice start 2023-07-01, one month: accepted by the widget bounds
although less than one full forward period remains before the data maximum. -/
def c1Choice : LookbackChoice := ⟨⟨2023, 7, 1, 0⟩, 1⟩

/-- Parameters used with the configuration-slip dataset. -/
def c1P : AppParams := ⟨.PnL, .Month, 5, 5⟩

/-- Witness dataset: two July slots (PnL 100 at 09:30, 80 at 10:30), a forward
August trade (PnL 50 at 09:30), a September trade (PnL 30 at 09:30), and an
October trade extending the data span to two forward cycles. -/
def wRaw : List TradeRow :=
  [⟨⟨2023, 7, 3, 34200000000⟩, 1, 1, 0⟩,
   ⟨⟨2023, 7, 5, 37800000000⟩, 1, 4/5, 0⟩,
   ⟨⟨2023, 8, 10, 34200000000⟩, 1, 1/2, 0⟩,
   ⟨⟨2023, 9, 10, 34200000000⟩, 1, 3/10, 0⟩,
   ⟨⟨2023, 10, 2, 1800000000⟩, 1, 0, 0⟩]

/-- The preprocessed witness dataset. -/
def wDf : List PRow := preprocessData wRaw

/-- Lookback choice for the witness dataset: start 2023-07-01, one month. -/
def wChoice : LookbackChoice := ⟨⟨2023, 7, 1, 0⟩, 1⟩

/-- Parameters for the witness dataset. -/
def wP : AppParams := ⟨.PnL, .Month, 5, 5⟩

/-- Dataset for the mean-of-means check: July trades with PnL 0 and 10 at the
09:30 slot (period mean 5) and an August trade with PnL 100 at the same slot
(period mean 100); the pooled raw mean 110/3 differs from (5 + 100)/2. -/
def c3Raw : List TradeRow :=
  [⟨⟨2023, 7, 3, 34200000000⟩, 1, 0, 0⟩,
   ⟨⟨2023, 7, 5, 34200000000⟩, 1, 1/10, 0⟩,
   ⟨⟨2023, 8, 7, 34200000000⟩, 1, 1, 0⟩]

/-- The preprocessed mean-of-means dataset. -/
def c3Df : List PRow := preprocessData c3Raw

/-- Dataset for the group-order sensitivity counterexample: two July slots tied
at PnL 100, one forward August trade at the 09:30 slot, and a September trade
extending the span to one forward cycle. -/
def c7Raw : List TradeRow :=
  [⟨⟨2023, 7, 3, 34200000000⟩, 1, 1, 0⟩,
   ⟨⟨2023, 7, 5, 37800000000⟩, 1, 1, 0⟩,
   ⟨⟨2023, 8, 10, 34200000000⟩, 1, 1/2, 0⟩,
   ⟨⟨2023, 9, 2, 36000000000⟩, 1, 0, 0⟩]

/-- The preprocessed group-order sensitivity dataset. -/
def c7Df : List PRow := preprocessData c7Raw

/-- Parameters for the group-order counterexample: keep a single top slot. -/
def c7P : AppParams := ⟨.PnL, .Month, 5, 1⟩

/-- Lookback choice for the group-order counterexample. -/
def c7Choice : LookbackChoice := ⟨⟨2023, 7, 1, 0⟩, 1⟩

/-- A second admissible group-iteration order: the first `group_by` enumerates
its groups in reverse order (a permutation of the canonical enumeration). -/
def reversedOrders : GroupOrders := ⟨List.reverse, id, id⟩

/-- A small slot-statistics table with distinct slots. -/
def c6Stats : List SlotRow :=
  [⟨⟨9, 30, false⟩, 100, 100⟩, ⟨⟨10, 30, false⟩, 80, 80⟩]

/-- Propositional form of the lexicographic timestamp comparison. -/
theorem ble_eq_true_iff (a b : DateTime) :
    a.ble b = true ↔
      (a.year < b.year ∨ (a.year = b.year ∧ (a.month < b.month ∨ (a.month = b.month ∧
        (a.day < b.day ∨ (a.day = b.day ∧ a.us ≤ b.us)))))) := by
  unfold DateTime.ble
  split_ifs <;> simp_all <;> omega

/-- Propositional form of the negated lexicographic comparison. -/
theorem ble_eq_false_iff (a b : DateTime) :
    a.ble b = false ↔
      ¬(a.year < b.year ∨ (a.year = b.year ∧ (a.month < b.month ∨ (a.month = b.month ∧
        (a.day < b.day ∨ (a.day = b.day ∧ a.us ≤ b.us)))))) := by
  rw [← ble_eq_true_iff]
  cases h : a.ble b <;> simp

/-- Adding one month advances the month index by exactly one. -/
theorem monthIdxI_stepMonth (d : DateTime) : monthIdxI (stepMonth d) = monthIdxI d + 1 := by
  have e1 : 12 * ((monthIdxI d + 1).ediv 12) + (monthIdxI d + 1).emod 12 = monthIdxI d + 1 :=
    Int.ediv_add_emod _ _
  have e2 : 0 ≤ (monthIdxI d + 1).emod 12 := Int.emod_nonneg _ (by norm_num)
  have e3 : (monthIdxI d + 1).emod 12 < 12 := Int.emod_lt_of_pos _ (by norm_num)
  have e4 : 0 ≤ monthIdxI d + 1 := by unfold monthIdxI; omega
  simp only [stepMonth, addMonthsI, monthIdxI] at *
  omega

/-- Month arithmetic always lands on a month in `1..12`. -/
theorem monthNormal_addMonthsI (d : DateTime) (k : Int) : MonthNormal (addMonthsI d k) := by
  have e2 : 0 ≤ (monthIdxI d + k).emod 12 := Int.emod_nonneg _ (by norm_num)
  have e3 : (monthIdxI d + k).emod 12 < 12 := Int.emod_lt_of_pos _ (by norm_num)
  simp only [MonthNormal, addMonthsI]
  omega

/-- Under a normal month field, the lexicographic order refines the month-index
order. -/
theorem ble_monthIdx (a b : DateTime) (hn : MonthNormal a) (h : a.ble b = true) :
    monthIdxI a ≤ monthIdxI b := by
  rw [ble_eq_true_iff] at h
  unfold MonthNormal at hn
  unfold monthIdxI
  omega

/-- Once the loop guard fails it keeps failing: a timestamp beyond the maximum
stays beyond it after another month step. -/
theorem not_ble_stepMonth (a b : DateTime) (h : a.ble b = false) :
    (stepMonth a).ble b = false := by
  rw [ble_eq_false_iff] at h ⊢
  have e1 : 12 * ((monthIdxI a + 1).ediv 12) + (monthIdxI a + 1).emod 12 = monthIdxI a + 1 :=
    Int.ediv_add_emod _ _
  have e2 : 0 ≤ (monthIdxI a + 1).emod 12 := Int.emod_nonneg _ (by norm_num)
  have e3 : (monthIdxI a + 1).emod 12 < 12 := Int.emod_lt_of_pos _ (by norm_num)
  have e4 : 0 ≤ monthIdxI a + 1 := by unfold monthIdxI; omega
  simp only [stepMonth, addMonthsI, monthIdxI] at *
  omega

/-- Iterated form of the previous lemma. -/
theorem not_ble_iterate (a b : DateTime) (i : ℕ) (h : a.ble b = false) :
    (stepMonth^[i] a).ble b = false := by
  induction i generalizing a with
  | zero => simpa using h
  | succ j ih =>
    rw [Function.iterate_succ_apply]
    exact ih (stepMonth a) (not_ble_stepMonth a b h)

/-- When the iteration budget is spent the loop guard has already failed. -/
theorem loopFuel_zero (maxDt fe : DateTime) (hn : MonthNormal fe) (h : loopFuel maxDt fe = 0) :
    fe.ble maxDt = false := by
  rw [ble_eq_false_iff]
  unfold loopFuel monthIdxI at h
  unfold MonthNormal at hn
  omega

/-- Each month step consumes exactly one unit of the iteration budget. -/
theorem loopFuel_stepMonth (maxDt fe : DateTime) :
    loopFuel maxDt (stepMonth fe) = loopFuel maxDt fe - 1 := by
  unfold loopFuel
  rw [monthIdxI_stepMonth]
  omega

/-- Membership in a `groupBy` output determines the group's rows: they are
exactly the input rows with the group's key. -/
theorem groupBy_snd_eq {α K : Type} [DecidableEq K] (key : α → K) (l : List α)
    (g : K × List α) (h : g ∈ groupBy key l) :
    g.2 = l.filter (fun x => decide (key x = g.1)) := by
  unfold groupBy at h
  obtain ⟨k, hk, he⟩ := List.mem_map.mp h
  rw [← he]

/-- `sortDesc` only permutes its input. -/
theorem mem_sortDesc {α : Type} (key : α → ℚ) (l : List α) (a : α) (h : a ∈ sortDesc key l) :
    a ∈ l :=
  ((List.perm_insertionSort _ l).mem_iff).mp h

/-- `sortDesc` preserves length. -/
theorem length_sortDesc {α : Type} (key : α → ℚ) (l : List α) :
    (sortDesc key l).length = l.length :=
  (List.perm_insertionSort _ l).length_eq

/-- `sortDesc` sorts non-increasingly by its key. -/
theorem sorted_sortDesc {α : Type} (key : α → ℚ) (l : List α) :
    (sortDesc key l).Pairwise (fun a b => key b ≤ key a) := by
  haveI : IsTotal α (fun a b => key b ≤ key a) := ⟨fun a b => le_total (key b) (key a)⟩
  haveI : IsTrans α (fun a b => key b ≤ key a) := ⟨fun a b c h1 h2 => le_trans h2 h1⟩
  exact List.sorted_insertionSort _ l

/-- Head of a running-total accumulation started at `acc`. -/
theorem runningTotalsAux_head (acc : ℚ) (l : List ℚ) :
    (runningTotalsAux acc l)[0]? = l[0]?.map (fun p => acc + p) := by
  cases l <;> simp [runningTotalsAux]

/-- Recurrence of a running-total accumulation: each entry is the previous one
plus the current per-cycle sum. -/
theorem runningTotalsAux_succ (l : List ℚ) :
    ∀ (acc : ℚ) (i : ℕ) (a b : ℚ), (runningTotalsAux acc l)[i]? = some a →
      l[i + 1]? = some b → (runningTotalsAux acc l)[i + 1]? = some (a + b) := by
  induction l with
  | nil => intro acc i a b h1 h2; simp [runningTotalsAux] at h1
  | cons p ps ih =>
    intro acc i a b h1 h2
    cases i with
    | zero =>
      simp only [runningTotalsAux, List.getElem?_cons_zero, Option.some_inj] at h1
      simp only [List.getElem?_cons_succ] at h2
      simp only [runningTotalsAux, List.getElem?_cons_succ]
      rw [runningTotalsAux_head, h2]
      simp [h1]
    | succ j =>
      simp only [runningTotalsAux, List.getElem?_cons_succ] at h1 h2 ⊢
      exact ih (acc + p) j a b h1 h2

/-- Shape of the `i`-th cycle of the walk-forward loop body: its forward window
is the `i`-times-advanced month `(forward_start, forward_end]`, its anchored
PnL uses the lookback `[lookback_start, forward_start]`, and its unanchored PnL
uses the lookback `[i-times-advanced unanchored_start, forward_start]`. -/
theorem forwardCyclesAux_getElem (os : GroupOrders) (p : AppParams) (df : List PRow)
    (ls maxDt : DateTime) :
    ∀ (fuel : ℕ) (us fe : DateTime) (i : ℕ) (c : ForwardCycle),
      (forwardCyclesAux os p df ls maxDt fuel us fe)[i]? = some c →
      c = ⟨addMonthsI (stepMonth^[i] fe) (-1),
           calcForwardPnl df
             (getLookbackDataWith os p df ls (addMonthsI (stepMonth^[i] fe) (-1)))
             (addMonthsI (stepMonth^[i] fe) (-1)) (stepMonth^[i] fe),
           calcForwardPnl df
             (getLookbackDataWith os p df (stepMonth^[i] us) (addMonthsI (stepMonth^[i] fe) (-1)))
             (addMonthsI (stepMonth^[i] fe) (-1)) (stepMonth^[i] fe)⟩ := by
  intro fuel
  induction fuel with
  | zero => intro us fe i c h; simp [forwardCyclesAux] at h
  | succ n ih =>
    intro us fe i c h
    by_cases hg : fe.ble maxDt
    · simp only [forwardCyclesAux, hg, if_true] at h
      cases i with
      | zero =>
        simp only [List.getElem?_cons_zero, Option.some_inj] at h
        simp only [Function.iterate_zero_apply]
        exact h.symm
      | succ j =>
        simp only [List.getElem?_cons_succ] at h
        have hj := ih (addMonthsI us 1) (addMonthsI fe 1) j c h
        simpa [Function.iterate_succ_apply, stepMonth] using hj
    · simp only [forwardCyclesAux, hg, if_false] at h
      simp at h

/-- The loop body produces exactly one cycle per iteration on which the guard
holds, provided the budget does not cut it short. -/
theorem forwardCyclesAux_length_iff (os : GroupOrders) (p : AppParams) (df : List PRow)
    (ls maxDt : DateTime) :
    ∀ (fuel : ℕ) (us fe : DateTime) (i : ℕ), MonthNormal fe → loopFuel maxDt fe ≤ fuel →
      (i < (forwardCyclesAux os p df ls maxDt fuel us fe).length ↔
        (stepMonth^[i] fe).ble maxDt = true) := by
  intro fuel
  induction fuel with
  | zero =>
    intro us fe i hn hf
    have h0 : loopFuel maxDt fe = 0 := Nat.le_zero.mp hf
    have hfalse := not_ble_iterate fe maxDt i (loopFuel_zero maxDt fe hn h0)
    simp [forwardCyclesAux, hfalse]
  | succ n ih =>
    intro us fe i hn hf
    by_cases hg : fe.ble maxDt
    · simp only [forwardCyclesAux, hg, if_true, List.length_cons]
      cases i with
      | zero => simpa using hg
      | succ j =>
        rw [Nat.succ_lt_succ_iff]
        have hn1 : MonthNormal (addMonthsI fe 1) := monthNormal_addMonthsI fe 1
        have hf1 : loopFuel maxDt (addMonthsI fe 1) ≤ n := by
          have := loopFuel_stepMonth maxDt fe
          unfold stepMonth at this
          omega
        rw [ih (addMonthsI us 1) (addMonthsI fe 1) j hn1 hf1]
        rw [Function.iterate_succ_apply]
        rfl
    · have hg1 : fe.ble maxDt = false := Bool.eq_false_iff.mpr hg
      have hfalse := not_ble_iterate fe maxDt i hg1
      simp [forwardCyclesAux, hg1, hfalse]

/-- C9: the walk-forward loop terminates for every finite record set and runs
exactly while `forward_end <= max_datetime`: the loop (a total function here)
has its `i`-th cycle precisely when the `i`-times-advanced forward-end, i.e.
the cycle boundary plus one period, still lies within the data's maximum
timestamp, so it stops as soon as the boundary plus one period exceeds the
maximum and never evaluates a partial final period. -/
theorem walkforward_cycle_count (os : GroupOrders) (p : AppParams) (df : List PRow)
    (ls maxDt us le : DateTime) (i : ℕ) :
    i < (forwardCycles os p df ls maxDt us le).length ↔
      (stepMonth^[i] (addMonthsI le 1)).ble maxDt = true := by
  unfold forwardCycles
  exact forwardCyclesAux_length_iff os p df ls maxDt _ us (addMonthsI le 1) i
    (monthNormal_addMonthsI le 1) (le_refl _)

/-- C2: every cycle's forward PnL (for either mode) is the sum of `PnL` over
exactly the trades whose `entryTime` is strictly greater than the cycle's
forward-start and at most its forward-end, and whose time-of-day label is a
member of the time column of the top-slot table selected on that cycle's
lookback window. -/
theorem cycle_forward_pnl (os : GroupOrders) (p : AppParams) (df : List PRow)
    (ls maxDt us le : DateTime) (i : ℕ) (c : ForwardCycle)
    (h : (forwardCycles os p df ls maxDt us le)[i]? = some c) :
    c.anchoredPnl = ((df.filter (fun r =>
        (addMonthsI (stepMonth^[i] (addMonthsI le 1)) (-1)).blt r.entryTime &&
        r.entryTime.ble (stepMonth^[i] (addMonthsI le 1)) &&
        ((getLookbackDataWith os p df ls
            (addMonthsI (stepMonth^[i] (addMonthsI le 1)) (-1))).map SlotRow.time).contains
          r.time)).map PRow.pnl).sum ∧
    c.unanchoredPnl = ((df.filter (fun r =>
        (addMonthsI (stepMonth^[i] (addMonthsI le 1)) (-1)).blt r.entryTime &&
        r.entryTime.ble (stepMonth^[i] (addMonthsI le 1)) &&
        ((getLookbackDataWith os p df (stepMonth^[i] us)
            (addMonthsI (stepMonth^[i] (addMonthsI le 1)) (-1))).map SlotRow.time).contains
          r.time)).map PRow.pnl).sum := by
  unfold forwardCycles at h
  have hc := forwardCyclesAux_getElem os p df ls maxDt _ us (addMonthsI le 1) i c h
  subst hc
  exact ⟨rfl, rfl⟩

/-- C10: whenever the loop runs at least one cycle, the first cycle's anchored
and unanchored forward PnL agree (both modes select on the identical lookback
window there), hence the two cumulative series start with the same value. -/
theorem first_cycle_modes_agree (os : GroupOrders) (p : AppParams) (df : List PRow)
    (ls maxDt le : DateTime) (c : ForwardCycle)
    (h : (forwardCycles os p df ls maxDt ls le)[0]? = some c) :
    c.anchoredPnl = c.unanchoredPnl ∧
    (runningTotals ((forwardCycles os p df ls maxDt ls le).map ForwardCycle.anchoredPnl))[0]? =
      (runningTotals ((forwardCycles os p df ls maxDt ls le).map ForwardCycle.unanchoredPnl))[0]? := by
  unfold forwardCycles at h
  have hc := forwardCyclesAux_getElem os p df ls maxDt _ ls (addMonthsI le 1) 0 c h
  simp only [Function.iterate_zero_apply] at hc
  have h1 : c.anchoredPnl = c.unanchoredPnl := by rw [hc]
  refine ⟨h1, ?_⟩
  unfold runningTotals forwardCycles
  rw [runningTotalsAux_head, runningTotalsAux_head, List.getElem?_map, List.getElem?_map, h]
  simp [h1]

/-- C5: both cumulative series obey the running-total recurrence: entry `i+1`
is entry `i` plus cycle `i+1`'s forward PnL, and entry `0` is cycle `0`'s
forward PnL, for the anchored and the unanchored mode alike. -/
theorem cumulative_series_recurrence (os : GroupOrders) (p : AppParams) (df : List PRow)
    (ls maxDt us le : DateTime) (i : ℕ) (a b : ℚ) :
    ((runningTotals ((forwardCycles os p df ls maxDt us le).map ForwardCycle.anchoredPnl))[i]? =
        some a →
      ((forwardCycles os p df ls maxDt us le).map ForwardCycle.anchoredPnl)[i + 1]? = some b →
      (runningTotals
        ((forwardCycles os p df ls maxDt us le).map ForwardCycle.anchoredPnl))[i + 1]? =
          some (a + b)) ∧
    ((runningTotals ((forwardCycles os p df ls maxDt us le).map ForwardCycle.unanchoredPnl))[i]? =
        some a →
      ((forwardCycles os p df ls maxDt us le).map ForwardCycle.unanchoredPnl)[i + 1]? = some b →
      (runningTotals
        ((forwardCycles os p df ls maxDt us le).map ForwardCycle.unanchoredPnl))[i + 1]? =
          some (a + b)) ∧
    (((forwardCycles os p df ls maxDt us le).map ForwardCycle.anchoredPnl)[0]? = some a →
      (runningTotals ((forwardCycles os p df ls maxDt us le).map ForwardCycle.anchoredPnl))[0]? =
        some a) ∧
    (((forwardCycles os p df ls maxDt us le).map ForwardCycle.unanchoredPnl)[0]? = some a →
      (runningTotals ((forwardCycles os p df ls maxDt us le).map ForwardCycle.unanchoredPnl))[0]? =
        some a) := by
  refine ⟨fun h1 h2 => runningTotalsAux_succ _ 0 i a b h1 h2,
          fun h1 h2 => runningTotalsAux_succ _ 0 i a b h1 h2, ?_, ?_⟩
  · intro h
    unfold runningTotals
    rw [runningTotalsAux_head, h]
    simp
  · intro h
    unfold runningTotals
    rw [runningTotalsAux_head, h]
    simp

/-- C6: the final selection returns a table sorted non-increasingly by the
chosen ranking metric whose length is the minimum of `n` and the number of
distinct slots in the input. -/
theorem selectTop_sorted_length (m : RankMetric) (n : ℕ) (ss : List SlotRow)
    (h1 : (ss.map SlotRow.time).Nodup) (h2 : 0 < n) :
    (selectTop m n ss).length = min n ((ss.map SlotRow.time).dedup.length) ∧
    (selectTop m n ss).Pairwise (fun a b => SlotRow.metricVal m b ≤ SlotRow.metricVal m a) := by
  constructor
  · unfold selectTop
    rw [List.length_take, length_sortDesc, h1.dedup, List.length_map]
  · exact List.Pairwise.sublist (List.take_sublist _ _) (sorted_sortDesc _ _)

/-- The derived columns of a preprocessed record are the documented formulas in
its own raw columns. -/
theorem preprocess_fields (raw : List TradeRow) (r : PRow) (h : r ∈ preprocessData raw) :
    r.pnl = r.profitLossAfterSlippage * 100 - r.commissionFees ∧
    r.pcr = (r.profitLossAfterSlippage * 100 - r.commissionFees) / r.premium := by
  unfold preprocessData at h
  obtain ⟨r0, _, rfl⟩ := List.mem_map.mp h
  exact ⟨rfl, rfl⟩

/-- C4: each first-stage group mean is the arithmetic mean of
`ProfitLossAfterSlippage * 100 - CommissionFees` (and, for PCR, that value
divided by `Premium`) over exactly the preprocessed records carrying the
group's key whose `entryTime` lies in `[start, stop]`, inclusive on both
bounds. -/
theorem aggregator_group_mean (raw : List TradeRow) (p : AppParams) (start stop : DateTime)
    (row : SlotAgg) (h : row ∈ stage1 p (preprocessData raw) start stop) :
    row.pnl = colMean (((preprocessData raw).filter (fun r =>
        decide ((r.year, periodVal p r, r.time) = (row.year, row.period, row.time)) &&
        (start.ble r.entryTime && r.entryTime.ble stop))).map
      (fun r => r.profitLossAfterSlippage * 100 - r.commissionFees)) ∧
    row.pcr = colMean (((preprocessData raw).filter (fun r =>
        decide ((r.year, periodVal p r, r.time) = (row.year, row.period, row.time)) &&
        (start.ble r.entryTime && r.entryTime.ble stop))).map
      (fun r => (r.profitLossAfterSlippage * 100 - r.commissionFees) / r.premium)) := by
  simp only [stage1, stage1With, canonicalOrders, id] at h
  obtain ⟨g, hg, heq⟩ := List.mem_map.mp h
  have h2 := groupBy_snd_eq (fun r : PRow => (r.year, periodVal p r, r.time)) _ g hg
  subst heq
  dsimp only
  simp only [Prod.mk.eta]
  have hfilter : (windowRows (preprocessData raw) start stop).filter
      (fun x => decide ((x.year, periodVal p x, x.time) = g.1)) =
      (preprocessData raw).filter (fun r =>
        decide ((r.year, periodVal p r, r.time) = g.1) &&
        (start.ble r.entryTime && r.entryTime.ble stop)) := by
    unfold windowRows
    rw [List.filter_filter]
  constructor
  · rw [h2, hfilter]
    exact (congrArg colMean (List.map_congr_left (fun r hr =>
      ((preprocess_fields raw r (List.mem_of_mem_filter hr)).1).symm))).symm
  · rw [h2, hfilter]
    exact (congrArg colMean (List.map_congr_left (fun r hr =>
      ((preprocess_fields raw r (List.mem_of_mem_filter hr)).2).symm))).symm

/-- C3: two-stage selection is mean-of-means: the pooled mean the third stage
reports for a slot is the arithmetic mean of the period-local means of the
stage-two survivors carrying that slot, and every survivor is itself a
first-stage period-local aggregate (not a recomputation from raw trades). -/
theorem twostage_mean_of_means (p : AppParams) (df : List PRow) (start stop : DateTime)
    (srow : SlotRow) (h : srow ∈ stage3 p df start stop) :
    srow.pnl = colMean (((stage2 p df start stop).filter
        (fun a => decide (a.time = srow.time))).map SlotAgg.pnl) ∧
    srow.pcr = colMean (((stage2 p df start stop).filter
        (fun a => decide (a.time = srow.time))).map SlotAgg.pcr) ∧
    ∀ a ∈ stage2 p df start stop, a ∈ stage1 p df start stop := by
  refine ⟨?_, ?_, ?_⟩
  · simp only [stage3, stage3With, canonicalOrders, id] at h
    obtain ⟨g, hg, heq⟩ := List.mem_map.mp h
    have h2 := groupBy_snd_eq (fun a : SlotAgg => a.time) _ g hg
    dsimp only at h2
    subst heq
    dsimp only
    unfold stage2
    simp only [canonicalOrders]
    rw [h2]
  · simp only [stage3, stage3With, canonicalOrders, id] at h
    obtain ⟨g, hg, heq⟩ := List.mem_map.mp h
    have h2 := groupBy_snd_eq (fun a : SlotAgg => a.time) _ g hg
    dsimp only at h2
    subst heq
    dsimp only
    unfold stage2
    simp only [canonicalOrders]
    rw [h2]
  · intro a ha
    simp only [stage2, stage2With, canonicalOrders, id] at ha
    obtain ⟨g, hg, hTake⟩ := List.mem_flatMap.mp ha
    have h3 : a ∈ g.2 := List.mem_of_mem_take hTake
    have h4 := groupBy_snd_eq (fun x : SlotAgg => (x.year, x.period)) _ g hg
    rw [h4] at h3
    have h5 := List.mem_of_mem_filter h3
    exact mem_sortDesc _ _ a h5

/-- C8: `run` fails before any processing exactly when the set difference of
the required columns and the actual columns is non-empty; the error names
exactly the missing columns; and any column set containing the four required
columns (extra columns included) never fails. -/
theorem validate_schema_gate (cols : List String) (raw : List TradeRow) (c : LookbackChoice)
    (p : AppParams) :
    ((∃ e, runApp cols raw c p = Except.error e) ↔ ¬(∀ r ∈ requiredCols, r ∈ cols)) ∧
    (∀ e, runApp cols raw c p = Except.error e → e = missingCols cols) ∧
    ((∀ r ∈ requiredCols, r ∈ cols) → runApp cols raw c p = Except.ok (appBody raw c p)) := by
  have hiff : missingCols cols = [] ↔ ∀ r ∈ requiredCols, r ∈ cols := by
    unfold missingCols
    rw [List.filter_eq_nil_iff]
    constructor
    · intro hh r hr
      have := hh r hr
      simpa using this
    · intro hh r hr
      simpa using hh r hr
  refine ⟨⟨?_, ?_⟩, ?_, ?_⟩
  · rintro ⟨e, he⟩ hall
    unfold runApp at he
    rw [if_pos (hiff.mpr hall)] at he
    simp at he
  · intro hnot
    have hne : missingCols cols ≠ [] := fun hh => hnot (hiff.mp hh)
    refine ⟨missingCols cols, ?_⟩
    unfold runApp
    rw [if_neg hne]
  · intro e he
    unfold runApp at he
    by_cases hh : missingCols cols = []
    · rw [if_pos hh] at he
      simp at he
    · rw [if_neg hh] at he
      injection he with h3
      exact h3.symm
  · intro hall
    unfold runApp
    rw [if_pos (hiff.mpr hall)]

section

attribute [local semireducible] Rat.add Rat.mul Rat.inv Rat.sub

/-- C1 (at the source's failing input): the widget bounds of
`_get_lookback_parameters` accept the start date 2023-07-01 with one lookback
month on data spanning 2023-07-01 09:30 to 2023-09-01 10:00, although the
lookback window leaves fewer days before the data maximum than one full
forward period; the walk-forward loop then runs zero cycles and the app
renders an empty cumulative series with no configuration error. -/
theorem config_slip_empty_series :
    lookbackChoiceOk (minDatetime c1Df) (maxDatetime c1Df) c1Choice = true ∧
    forwardCycles canonicalOrders c1P c1Df (lookbackStartOf c1Choice) (maxDatetime c1Df)
      (lookbackStartOf c1Choice) (lookbackEndOf c1Choice) = [] ∧
    runningTotals ((forwardCycles canonicalOrders c1P c1Df (lookbackStartOf c1Choice)
      (maxDatetime c1Df) (lookbackStartOf c1Choice) (lookbackEndOf c1Choice)).map
        ForwardCycle.anchoredPnl) = [] := by
  refine ⟨by decide, by decide, by decide⟩

/-- C7 counterexample: two runs on the identical record set with identical
parameters, differing only in the group-iteration order the underlying
aggregation happens to use (canonical first-occurrence order versus its
reverse, a permutation of the same groups), produce different lookback slot
tables and different anchored cumulative series, because a tie in the ranking
metric at the top-N boundary is broken by that order. -/
theorem run_order_dependence :
    (calcForwardFullWith canonicalOrders c7P c7Df (lookbackStartOf c7Choice)
        (lookbackEndOf c7Choice)).anchored ≠
      (calcForwardFullWith reversedOrders c7P c7Df (lookbackStartOf c7Choice)
        (lookbackEndOf c7Choice)).anchored ∧
    (calcForwardFullWith canonicalOrders c7P c7Df (lookbackStartOf c7Choice)
        (lookbackEndOf c7Choice)).lookback ≠
      (calcForwardFullWith reversedOrders c7P c7Df (lookbackStartOf c7Choice)
        (lookbackEndOf c7Choice)).lookback := by
  exact ⟨by decide, by decide⟩

/-- C7 (amended): the evaluation is deterministic once the group-iteration
order is fixed: runs with identical records, identical parameters, identical
lookback window, and the same group orders produce identical lookback tables
and cumulative series. -/
theorem run_deterministic_given_order (os : GroupOrders) (df1 df2 : List PRow)
    (p1 p2 : AppParams) (s1 s2 e1 e2 : DateTime) (h1 : df1 = df2) (h2 : p1 = p2)
    (h3 : s1 = s2) (h4 : e1 = e2) :
    calcForwardFullWith os p1 df1 s1 e1 = calcForwardFullWith os p2 df2 s2 e2 := by
  rw [h1, h2, h3, h4]

/-- Witness for the amended C7 determinism statement at a concrete run. -/
theorem run_deterministic_given_order_witness :
    calcForwardFullWith canonicalOrders c7P c7Df (lookbackStartOf c7Choice)
        (lookbackEndOf c7Choice) =
      calcForwardFullWith canonicalOrders c7P c7Df (lookbackStartOf c7Choice)
        (lookbackEndOf c7Choice) :=
  run_deterministic_given_order canonicalOrders c7Df c7Df c7P c7P
    (lookbackStartOf c7Choice) (lookbackStartOf c7Choice)
    (lookbackEndOf c7Choice) (lookbackEndOf c7Choice) rfl rfl rfl rfl

/-- Witness for the schema gate: the exact four required columns succeed, and a
table having only `EntryTime` fails naming the other three columns. -/
theorem validate_schema_gate_witness :
    runApp requiredCols wRaw wChoice wP = Except.ok (appBody wRaw wChoice wP) ∧
    runApp ["EntryTime"] wRaw wChoice wP =
      Except.error ["Premium", "ProfitLossAfterSlippage", "CommissionFees"] := by
  refine ⟨(validate_schema_gate requiredCols wRaw wChoice wP).2.2 (by decide), rfl⟩

/-- Witness for the per-cycle forward PnL: on the witness dataset the first
cycle is `(2023-08-01 end-of-day, 50, 50)` and its anchored PnL equals the
explicit filtered sum. -/
theorem cycle_forward_pnl_witness :
    (forwardCycles canonicalOrders wP wDf (lookbackStartOf wChoice) (maxDatetime wDf)
        (lookbackStartOf wChoice) (lookbackEndOf wChoice))[0]? =
      some ⟨⟨2023, 8, 1, 86399999999⟩, 50, 50⟩ ∧
    (50 : ℚ) = ((wDf.filter (fun r =>
        (addMonthsI (stepMonth^[0] (addMonthsI (lookbackEndOf wChoice) 1)) (-1)).blt r.entryTime &&
        r.entryTime.ble (stepMonth^[0] (addMonthsI (lookbackEndOf wChoice) 1)) &&
        ((getLookbackDataWith canonicalOrders wP wDf (lookbackStartOf wChoice)
            (addMonthsI (stepMonth^[0] (addMonthsI (lookbackEndOf wChoice) 1)) (-1))).map
          SlotRow.time).contains r.time)).map PRow.pnl).sum :=
  ⟨by decide,
   (cycle_forward_pnl canonicalOrders wP wDf (lookbackStartOf wChoice) (maxDatetime wDf)
     (lookbackStartOf wChoice) (lookbackEndOf wChoice) 0
     ⟨⟨2023, 8, 1, 86399999999⟩, 50, 50⟩ (by decide)).1⟩

/-- Witness for the first-cycle agreement of the two modes on the witness
dataset. -/
theorem first_cycle_modes_agree_witness :
    (forwardCycles canonicalOrders wP wDf (lookbackStartOf wChoice) (maxDatetime wDf)
        (lookbackStartOf wChoice) (lookbackEndOf wChoice))[0]? =
      some ⟨⟨2023, 8, 1, 86399999999⟩, 50, 50⟩ ∧
    (runningTotals ((forwardCycles canonicalOrders wP wDf (lookbackStartOf wChoice)
        (maxDatetime wDf) (lookbackStartOf wChoice) (lookbackEndOf wChoice)).map
          ForwardCycle.anchoredPnl))[0]? =
      (runningTotals ((forwardCycles canonicalOrders wP wDf (lookbackStartOf wChoice)
        (maxDatetime wDf) (lookbackStartOf wChoice) (lookbackEndOf wChoice)).map
          ForwardCycle.unanchoredPnl))[0]? :=
  ⟨by decide,
   (first_cycle_modes_agree canonicalOrders wP wDf (lookbackStartOf wChoice) (maxDatetime wDf)
     (lookbackEndOf wChoice) ⟨⟨2023, 8, 1, 86399999999⟩, 50, 50⟩ (by decide)).2⟩

/-- Witness for the cumulative-series recurrence on the witness dataset: the
anchored series starts at 50 and its second entry is 50 + 30 = 80. -/
theorem cumulative_series_recurrence_witness :
    (runningTotals ((forwardCycles canonicalOrders wP wDf (lookbackStartOf wChoice)
        (maxDatetime wDf) (lookbackStartOf wChoice) (lookbackEndOf wChoice)).map
          ForwardCycle.anchoredPnl))[0]? = some 50 ∧
    ((forwardCycles canonicalOrders wP wDf (lookbackStartOf wChoice) (maxDatetime wDf)
        (lookbackStartOf wChoice) (lookbackEndOf wChoice)).map
          ForwardCycle.anchoredPnl)[1]? = some 30 ∧
    (runningTotals ((forwardCycles canonicalOrders wP wDf (lookbackStartOf wChoice)
        (maxDatetime wDf) (lookbackStartOf wChoice) (lookbackEndOf wChoice)).map
          ForwardCycle.anchoredPnl))[1]? = some 80 :=
  ⟨by decide, by decide,
   (cumulative_series_recurrence canonicalOrders wP wDf (lookbackStartOf wChoice)
     (maxDatetime wDf) (lookbackStartOf wChoice) (lookbackEndOf wChoice) 0 50 30).1
     (by decide) (by decide)⟩

/-- Witness for the first-stage group means, with one record exactly at the
window start and one exactly at the window end: both are included and the
09:30 slot's mean is 100. -/
theorem aggregator_group_mean_witness :
    (⟨2023, 7, ⟨9, 30, false⟩, 100, 100⟩ : SlotAgg) ∈
      stage1 wP (preprocessData wRaw) ⟨2023, 7, 3, 34200000000⟩ ⟨2023, 7, 5, 37800000000⟩ ∧
    (100 : ℚ) = colMean (((preprocessData wRaw).filter (fun r =>
        decide ((r.year, periodVal wP r, r.time) = (2023, 7, (⟨9, 30, false⟩ : TimeLabel))) &&
        ((⟨2023, 7, 3, 34200000000⟩ : DateTime).ble r.entryTime &&
          r.entryTime.ble ⟨2023, 7, 5, 37800000000⟩))).map
      (fun r => r.profitLossAfterSlippage * 100 - r.commissionFees)) :=
  ⟨by decide,
   (aggregator_group_mean wRaw wP ⟨2023, 7, 3, 34200000000⟩ ⟨2023, 7, 5, 37800000000⟩
     ⟨2023, 7, ⟨9, 30, false⟩, 100, 100⟩ (by decide)).1⟩

/-- Witness for mean-of-means on a constructed dataset where the two period
means 5 and 100 pool to 105/2, which differs from the raw pooled mean 110/3. -/
theorem twostage_mean_of_means_witness :
    (⟨⟨9, 30, false⟩, 105/2, 105/2⟩ : SlotRow) ∈
      stage3 wP c3Df ⟨2023, 7, 1, 0⟩ ⟨2023, 8, 31, 86399999999⟩ ∧
    (105/2 : ℚ) = colMean (((stage2 wP c3Df ⟨2023, 7, 1, 0⟩ ⟨2023, 8, 31, 86399999999⟩).filter
        (fun a => decide (a.time = (⟨9, 30, false⟩ : TimeLabel)))).map SlotAgg.pnl) ∧
    (105/2 : ℚ) ≠ colMean (c3Df.map PRow.pnl) :=
  ⟨by decide,
   (twostage_mean_of_means wP c3Df ⟨2023, 7, 1, 0⟩ ⟨2023, 8, 31, 86399999999⟩
     ⟨⟨9, 30, false⟩, 105/2, 105/2⟩ (by decide)).1,
   by decide⟩

/-- Witness for the selection contract on a two-slot table with `n = 1`. -/
theorem selectTop_sorted_length_witness :
    ((c6Stats.map SlotRow.time).Nodup ∧ 0 < 1) ∧
    ((selectTop .PnL 1 c6Stats).length = min 1 ((c6Stats.map SlotRow.time).dedup.length) ∧
      (selectTop .PnL 1 c6Stats).Pairwise
        (fun a b => SlotRow.metricVal .PnL b ≤ SlotRow.metricVal .PnL a)) :=
  ⟨⟨by decide, by decide⟩, selectTop_sorted_length .PnL 1 c6Stats (by decide) (by decide)⟩

end
